import Mathlib

/-!
Verification development for the Microgreen-App yield-prediction engine.

Shallow embedding of the Python sources:
  * `src/ml_engine/train_model.py`        (MicrogreensYieldPredictor)
  * `src/ml_engine/prediction_service.py` (YieldPredictionService)
  * `src/ml_engine/retrain.py`            (ModelRetrainer)
  * `src/backend/app/services/ml_service.py` (MLService)
  * `src/backend/app/main.py`             (log preparation for prediction)

Python floats are modelled as exact rationals; dictionaries and pandas
single-row DataFrames as association lists; fallible operations return
`Except PyErr`.  Local-variable environments are modelled explicitly where
the source references names that may be unbound (`max_temp` / `min_temp` in
`predict_yield`), so that a NameError is representable.
-/

namespace Microgreen

/-- Python runtime errors that the embedded code can raise. -/
inductive PyErr where
  | keyError (k : String)
  | nameError (k : String)
  | valueError (m : String)
  | indexError
  | fileNotFound (f : String)
  | typeError (m : String)
deriving DecidableEq

/-- A Python value stored in a feature dict / DataFrame cell: either a
string or a number (numbers modelled as exact rationals). -/
inductive PyVal where
  | s (v : String)
  | n (v : ℚ)
deriving DecidableEq

/-- Python 3 `round(x)` to an integer: round half to even (banker's
rounding), as on CPython floats. -/
def roundHalfEven (x : ℚ) : ℤ :=
  let f : ℤ := ⌊x⌋
  let r : ℚ := x - f
  if r < 1/2 then f
  else if 1/2 < r then f + 1
  else if f % 2 = 0 then f else f + 1

/-- Python `round(x, d)`. -/
def pyRound (x : ℚ) (d : ℕ) : ℚ :=
  (roundHalfEven (x * (10 : ℚ) ^ d) : ℚ) / (10 : ℚ) ^ d

/-- `np.mean` of a list (call sites guarantee the list is nonempty). -/
def listMean (l : List ℚ) : ℚ := l.sum / (l.length : ℚ)

/-- Python `max` of a list (call sites guarantee the list is nonempty). -/
def listMax : List ℚ → ℚ
  | [] => 0
  | x :: xs => xs.foldl max x

/-- Python `min` of a list (call sites guarantee the list is nonempty). -/
def listMin : List ℚ → ℚ
  | [] => 0
  | x :: xs => xs.foldl min x

/-- `xs[-1]` for a list known nonempty at the call site: last element of
`x :: xs`. -/
def lastOf (x : α) (xs : List α) : α := xs.foldl (fun _ y => y) x

/-- A seed profile dictionary as consumed by `predict_yield`
(`seed_config` in `prediction_service.py`); the keys read via `[...]`
are modelled as required fields, the keys read via `.get` as options. -/
structure SeedConfig where
  seed_type : String
  name : String
  difficulty : String
  base_yield : ℚ
  growth_days : ℚ
  ideal_temp : ℚ
  ideal_humidity : ℚ
  seeding_density : Option ℚ := none
  target_density : Option ℚ := none
deriving DecidableEq

/-- A daily-log dictionary as consumed by `predict_yield`.  `temperature`
and `humidity` are read with `log[...]` (KeyError when absent), so they are
options here with an explicit raising accessor; `measured_height_mm` is
read with `.get(..., 0)`. -/
structure DailyLogDict where
  day : ℤ := 0
  temperature : Option ℚ := none
  humidity : Option ℚ := none
  watered : Bool := false
  measured_height_mm : Option ℚ := none
deriving DecidableEq

/-- `log['temperature']`: raises KeyError when the key is absent. -/
def getTemperature (log : DailyLogDict) : Except PyErr ℚ :=
  match log.temperature with
  | some t => .ok t
  | none => .error (.keyError "temperature")

/-- `log['humidity']`: raises KeyError when the key is absent. -/
def getHumidity (log : DailyLogDict) : Except PyErr ℚ :=
  match log.humidity with
  | some h => .ok h
  | none => .error (.keyError "humidity")

/-! ## train_model.py : MicrogreensYieldPredictor -/

/-- The trained state of `MicrogreensYieldPredictor`: the two regressors
(abstracted as functions from a scaled feature row to a prediction — the
spec places the internal mathematics of the regressors out of scope), the
frozen `StandardScaler` parameters, the `LabelEncoder` vocabulary
(`seed_encoder.classes_`), and the ensemble weights.  A prediction-time
DataFrame holds a single row, as at every inference call site. -/
structure MicrogreensYieldPredictor where
  rf_model : List ℚ → ℚ
  nn_model : List ℚ → ℚ
  scaler_mean : List ℚ
  scaler_scale : List ℚ
  classes : List String
  rf_weight : ℚ := 0.4
  nn_weight : ℚ := 0.6

/-- `self.rf_weight = 0.4` in `MicrogreensYieldPredictor.__init__`. -/
def init_rf_weight : ℚ := 0.4

/-- `self.nn_weight = 0.6` in `MicrogreensYieldPredictor.__init__`. -/
def init_nn_weight : ℚ := 0.6

/-- The fixed feature schema `feature_cols` of `prepare_features`
(train_model.py lines 67-87). -/
def feature_cols : List String :=
  ["seed_encoded", "base_yield", "growth_days", "ideal_temp",
   "ideal_humidity", "avg_temp", "avg_humidity", "temp_deviation",
   "humidity_deviation", "watering_consistency", "temp_stress_days",
   "humidity_stress_days", "missed_watering_days", "max_temp", "min_temp",
   "max_humidity", "min_humidity", "latest_height_mm",
   "seeding_density_g_cm2"]

/-- A single-row pandas DataFrame: an insertion-ordered association list
from column name to cell value. -/
structure DataFrame where
  cols : List (String × PyVal)
deriving DecidableEq

/-- `df[c]` on a single-row frame: KeyError when the column is absent. -/
def dfGet (df : DataFrame) (c : String) : Except PyErr PyVal :=
  match df.cols.lookup c with
  | some v => .ok v
  | none => .error (.keyError c)

/-- `df[c] = v`: overwrite the column if present, else append it. -/
def dfSet (df : DataFrame) (c : String) (v : PyVal) : DataFrame :=
  if (df.cols.lookup c).isSome then
    ⟨df.cols.map (fun p => if p.1 = c then (c, v) else p)⟩
  else
    ⟨df.cols ++ [(c, v)]⟩

/-- Strip `pat` as a prefix of `s`, returning the remaining suffix. -/
def stripPre : List Char → List Char → Option (List Char)
  | [], s => some s
  | _ :: _, [] => none
  | p :: ps, c :: cs => if p = c then stripPre ps cs else none

/-- Scanner for `str.replace`: one unit of fuel per consumed character
(the initial fuel is the string length, and every step consumes at least
one character, so the fuel never runs out at a call site). -/
def pyReplaceAux (pat rep : List Char) : ℕ → List Char → List Char
  | 0, s => s
  | _ + 1, [] => []
  | fuel + 1, c :: rest =>
    match stripPre pat (c :: rest) with
    | some s2 => rep ++ pyReplaceAux pat rep fuel s2
    | none => c :: pyReplaceAux pat rep fuel rest

/-- Python `str.replace(pat, rep)`: replace every non-overlapping
occurrence of `pat`, scanning left to right.  (`pat` is nonempty at both
call sites in the source.) -/
def pyReplace (s pat rep : String) : String :=
  if pat.data.isEmpty then s
  else ⟨pyReplaceAux pat.data rep.data s.data.length s.data⟩

/-- The inner `safe_encode` of `prepare_features` (train_model.py lines
53-61): a known variety is kept; otherwise the alternate separator forms
(three dashes versus dash-slash-dash) are tried against the vocabulary;
otherwise fall back to `classes_[0]` (printing a warning; IndexError only
if the vocabulary is empty, which a fitted encoder never is). -/
def safe_encode (classes : List String) (val : String) : Except PyErr String :=
  if val ∈ classes then .ok val
  else if pyReplace val "---" "-/-" ∈ classes then
    .ok (pyReplace val "---" "-/-")
  else if pyReplace val "-/-" "---" ∈ classes then
    .ok (pyReplace val "-/-" "---")
  else
    match classes with
    | [] => .error .indexError
    | c :: _ => .ok c

/-- `LabelEncoder.transform` on one value for a fitted encoder: the index
of the value in `classes_`; ValueError on an unseen label. -/
def le_transform (classes : List String) (val : String) : Except PyErr ℕ :=
  if val ∈ classes then .ok (classes.indexOf val)
  else .error (.valueError "unseen label")

/-- `StandardScaler.transform` with frozen parameters: per-feature
`(x - mean) / scale`; the caller checks the width of the row against the
fitted width first (sklearn raises on a shape mismatch). -/
def scaler_transform (mean scale xs : List ℚ) : List ℚ :=
  (xs.zip (mean.zip scale)).map (fun p => (p.1 - p.2.1) / p.2.2)

/-- `df[c]` coerced to a number, as done implicitly by `.values` followed
by `scaler.transform` (a string cell in a selected feature column would
make the numeric pipeline raise). -/
def dfGetNum (df : DataFrame) (c : String) : Except PyErr ℚ := do
  match ← dfGet df c with
  | .n q => pure q
  | .s _ => .error (.typeError c)

/-- `prepare_features(df, fit_encoders=False)` (train_model.py lines
49-98), for the single-row frames used at inference.  The frame is mutated
in place (`df['seed_type'] = ...`, `df['seed_encoded'] = ...`), so the
(possibly mutated) frame is returned alongside the result, also on the
error paths: a mutation performed before a later failure persists. -/
def prepare_features (p : MicrogreensYieldPredictor) (df : DataFrame) :
    DataFrame × Except PyErr (List ℚ) :=
  match dfGet df "seed_type" with
  | .error e => (df, .error e)
  | .ok (.n _) => (df, .error (.typeError "seed_type"))
  | .ok (.s v) =>
    match safe_encode p.classes v with
    | .error e => (df, .error e)
    | .ok w =>
      let df1 := dfSet df "seed_type" (.s w)
      match le_transform p.classes w with
      | .error e => (df1, .error e)
      | .ok i =>
        let df2 := dfSet df1 "seed_encoded" (.n i)
        match feature_cols.mapM (dfGetNum df2) with
        | .error e => (df2, .error e)
        | .ok xs =>
          if xs.length = p.scaler_mean.length ∧
             xs.length = p.scaler_scale.length then
            (df2, .ok (scaler_transform p.scaler_mean p.scaler_scale xs))
          else (df2, .error (.valueError "shape mismatch"))

/-- `MicrogreensYieldPredictor.predict` (train_model.py lines 265-282) on
a single-row frame: prepare features, run both regressors, blend with the
ensemble weights.  Returns the mutated frame alongside the prediction. -/
def predictor_predict (p : MicrogreensYieldPredictor) (df : DataFrame) :
    DataFrame × Except PyErr ℚ :=
  match prepare_features p df with
  | (df1, .error e) => (df1, .error e)
  | (df1, .ok xs) =>
    (df1, .ok (p.rf_weight * p.rf_model xs + p.nn_weight * p.nn_model xs))

/-! ## prediction_service.py : YieldPredictionService -/

/-- One suggestion dict produced by `_generate_suggestions`. -/
structure Suggestion where
  type : String
  issue : String
  message : String
  potential_loss : Option String
deriving DecidableEq

/-- The result dict of `YieldPredictionService.predict_yield`. -/
structure PredictionResult where
  predicted_yield : ℚ
  base_yield : ℚ
  yield_efficiency : ℚ
  potential_loss : ℚ
  suggestions : List Suggestion
  status : String
deriving DecidableEq

/-- The local variables assigned by the aggregate-feature section of
`predict_yield` (prediction_service.py lines 48-79), in assignment order,
as a name-to-value environment.  Accessing a missing `temperature` or
`humidity` key raises KeyError at the first list comprehension that reads
it (line 50 reads every temperature, line 51 every humidity).  Note that
no `max_temp` or `min_temp` local is ever assigned: the source computes
max/min only for humidity (lines 73-74). -/
def encodingLocals (seed : SeedConfig) (logs : List DailyLogDict) :
    Except PyErr (List (String × ℚ)) := do
  let num_days : ℚ := (logs.length : ℚ)
  let temps ← logs.mapM getTemperature
  let avg_temp := listMean temps
  let hums ← logs.mapM getHumidity
  let avg_humidity := listMean hums
  let watering_consistency :=
    ((logs.filter (fun l => l.watered)).length : ℚ) / num_days
  let temp_deviation := listMean (temps.map (fun t => |t - seed.ideal_temp|))
  let humidity_deviation :=
    listMean (hums.map (fun h => |h - seed.ideal_humidity|))
  let temp_stress_days : ℚ :=
    ((temps.filter (fun t => 3 < |t - seed.ideal_temp|)).length : ℚ)
  let humidity_stress_days : ℚ :=
    ((hums.filter (fun h => 15 < |h - seed.ideal_humidity|)).length : ℚ)
  let missed_watering_days : ℚ :=
    ((logs.filter (fun l => !l.watered)).length : ℚ)
  let max_humidity := listMax hums
  let min_humidity := listMin hums
  let latest_height :=
    match logs.getLast? with
    | some l => l.measured_height_mm.getD 0
    | none => 0
  let seeding_density :=
    seed.seeding_density.getD (seed.target_density.getD (seed.base_yield / 1290))
  pure [("num_days", num_days), ("avg_temp", avg_temp),
        ("avg_humidity", avg_humidity),
        ("watering_consistency", watering_consistency),
        ("temp_deviation", temp_deviation),
        ("humidity_deviation", humidity_deviation),
        ("temp_stress_days", temp_stress_days),
        ("humidity_stress_days", humidity_stress_days),
        ("missed_watering_days", missed_watering_days),
        ("max_humidity", max_humidity), ("min_humidity", min_humidity),
        ("latest_height", latest_height),
        ("seeding_density", seeding_density)]

/-- Reference to a Python local variable: NameError when unbound. -/
def envLookup (env : List (String × ℚ)) (name : String) : Except PyErr ℚ :=
  match env.lookup name with
  | some v => .ok v
  | none => .error (.nameError name)

/-- The feature dict built by `predict_yield` (prediction_service.py lines
82-104), with its values evaluated in source order against the environment
of assigned locals.  The entries `max_temp` and `min_temp` (lines 98-99)
reference locals that the function never assigns. -/
def featureRow (seed : SeedConfig) (env : List (String × ℚ)) :
    Except PyErr (List (String × PyVal)) := do
  let avg_temp ← envLookup env "avg_temp"
  let avg_humidity ← envLookup env "avg_humidity"
  let temp_deviation ← envLookup env "temp_deviation"
  let humidity_deviation ← envLookup env "humidity_deviation"
  let watering_consistency ← envLookup env "watering_consistency"
  let temp_stress_days ← envLookup env "temp_stress_days"
  let humidity_stress_days ← envLookup env "humidity_stress_days"
  let missed_watering_days ← envLookup env "missed_watering_days"
  let max_temp ← envLookup env "max_temp"
  let min_temp ← envLookup env "min_temp"
  let max_humidity ← envLookup env "max_humidity"
  let min_humidity ← envLookup env "min_humidity"
  let latest_height ← envLookup env "latest_height"
  let seeding_density ← envLookup env "seeding_density"
  pure [("seed_type", .s seed.seed_type), ("seed_name", .s seed.name),
        ("difficulty", .s seed.difficulty), ("base_yield", .n seed.base_yield),
        ("growth_days", .n seed.growth_days),
        ("ideal_temp", .n seed.ideal_temp),
        ("ideal_humidity", .n seed.ideal_humidity),
        ("avg_temp", .n (pyRound avg_temp 2)),
        ("avg_humidity", .n (pyRound avg_humidity 2)),
        ("temp_deviation", .n (pyRound temp_deviation 2)),
        ("humidity_deviation", .n (pyRound humidity_deviation 2)),
        ("watering_consistency", .n (pyRound watering_consistency 2)),
        ("temp_stress_days", .n temp_stress_days),
        ("humidity_stress_days", .n humidity_stress_days),
        ("missed_watering_days", .n missed_watering_days),
        ("max_temp", .n max_temp), ("min_temp", .n min_temp),
        ("max_humidity", .n max_humidity), ("min_humidity", .n min_humidity),
        ("latest_height_mm", .n latest_height),
        ("seeding_density_g_cm2", .n seeding_density)]

/-- `_generate_suggestions` (prediction_service.py lines 124-193): the
rule chain over the latest log, appending at most one temperature rule,
at most one humidity rule, a watering rule, and a lone success entry when
nothing fired.  Reads `latest_log['temperature']` and
`latest_log['humidity']` (KeyError when absent). -/
def generate_suggestions (latest_log : DailyLogDict) (seed : SeedConfig)
    (predicted_yield : ℚ) : Except PyErr (List Suggestion) := do
  let temp ← getTemperature latest_log
  let humidity ← getHumidity latest_log
  let watered := latest_log.watered
  let ideal_temp := seed.ideal_temp
  let tempSugs : List Suggestion :=
    if ideal_temp + 4 < temp then
      [{ type := "critical", issue := "Heat Stress Detected",
         message := "Temperature (" ++ toString temp ++
           "°C) is too high. Move to cooler spot or add fan.",
         potential_loss :=
           some (toString (pyRound ((temp - ideal_temp) * 8) 1) ++ "g") }]
    else if ideal_temp + 2 < temp then
      [{ type := "warning", issue := "Above Ideal Temperature",
         message := "Try to lower temperature closer to " ++
           toString ideal_temp ++ "°C for optimal growth.",
         potential_loss := none }]
    else if temp < ideal_temp - 4 then
      [{ type := "warning", issue := "Temperature Too Low",
         message := "Consider moving to warmer location. Ideal: " ++
           toString ideal_temp ++ "°C.",
         potential_loss := none }]
    else []
  let humSugs : List Suggestion :=
    if humidity < 35 then
      [{ type := "warning", issue := "Air Too Dry",
         message := "Mist lightly or add humidity dome to prevent wilting.",
         potential_loss := none }]
    else if 70 < humidity then
      [{ type := "warning", issue := "High Humidity",
         message := "Improve air circulation to prevent mold growth.",
         potential_loss := none }]
    else []
  let waterSugs : List Suggestion :=
    if !watered then
      [{ type := "critical", issue := "Missed Watering!",
         message := "Water immediately to prevent wilting and yield loss.",
         potential_loss := some "25-40g" }]
    else []
  let suggestions := tempSugs ++ humSugs ++ waterSugs
  if suggestions.isEmpty then
    pure [{ type := "success", issue := "Perfect Conditions!",
            message := "Keep it up! You\x27re on track for " ++
              toString (pyRound predicted_yield 0) ++ "g yield.",
            potential_loss := none }]
  else
    pure suggestions

/-- `_get_status` (prediction_service.py lines 195-206). -/
def get_status (predicted_yield base_yield : ℚ) : String :=
  let efficiency := predicted_yield / base_yield
  if 0.95 ≤ efficiency then "excellent"
  else if 0.85 ≤ efficiency then "good"
  else if 0.70 ≤ efficiency then "fair"
  else "poor"

/-- The single success suggestion returned for an empty log history
(prediction_service.py lines 38-43). -/
def readyToStartSuggestion : Suggestion :=
  { type := "success", issue := "Ready to Start!",
    message := "Everything looks good. Prediction will update once cultivation begins.",
    potential_loss := none }

/-- `YieldPredictionService.predict_yield` (prediction_service.py lines
21-122).  The loaded predictor is the service's `self.predictor`.  An
empty log history short-circuits; otherwise the aggregate locals are
computed, the feature dict is built (referencing the unassigned locals
`max_temp` and `min_temp`), the single-row frame is scored by the
ensemble, and suggestions plus status are assembled. -/
def service_predict_yield (p : MicrogreensYieldPredictor)
    (seed : SeedConfig) (daily_logs : List DailyLogDict) :
    Except PyErr PredictionResult :=
  match daily_logs with
  | [] =>
    .ok { predicted_yield := seed.base_yield, base_yield := seed.base_yield,
          yield_efficiency := 1.0, potential_loss := 0,
          suggestions := [readyToStartSuggestion], status := "excellent" }
  | l0 :: rest => do
    let env ← encodingLocals seed (l0 :: rest)
    let row ← featureRow seed env
    let features : DataFrame := ⟨row⟩
    let predicted_yield ← (predictor_predict p features).2
    let latest_log := lastOf l0 rest
    let suggestions ← generate_suggestions latest_log seed predicted_yield
    pure { predicted_yield := pyRound predicted_yield 1,
           base_yield := seed.base_yield,
           yield_efficiency := pyRound (predicted_yield / seed.base_yield) 3,
           potential_loss := pyRound (seed.base_yield - predicted_yield) 1,
           suggestions := suggestions,
           status := get_status predicted_yield seed.base_yield }

/-! ## backend/app/services/ml_service.py : MLService -/

/-- `MLService.predict_yield` (ml_service.py lines 46-67).  The service's
`self.predictor` is `None` when the ML stack failed to import or to
initialise; in that case a default result with status `"degraded"` and an
empty suggestion list is returned.  Otherwise the call is delegated to the
loaded `YieldPredictionService` with no exception handling, so an
inference failure propagates to the caller. -/
def mlservice_predict_yield (predictor : Option MicrogreensYieldPredictor)
    (seed : SeedConfig) (daily_logs : List DailyLogDict) :
    Except PyErr PredictionResult :=
  match predictor with
  | none =>
    .ok { predicted_yield := seed.base_yield, base_yield := seed.base_yield,
          yield_efficiency := 1.0, potential_loss := 0,
          suggestions := [], status := "degraded" }
  | some p => service_predict_yield p seed daily_logs

/-! ## backend/app/main.py : log preparation for prediction -/

/-- A `DailyLog` ORM row as read by the backend (models.py): nullable
temperature and humidity columns. -/
structure OrmDailyLog where
  day_number : ℤ
  temperature : Option ℚ := none
  humidity : Option ℚ := none
  watered : Bool := false
deriving DecidableEq

/-- The per-log dict built by `get_prediction` in main.py before calling
`ml_service.predict_yield`: absent temperature and humidity are replaced
by the seed's ideal values (`log.temperature if log.temperature is not
None else crop.seed.ideal_temp`, and likewise for humidity). -/
def prep_log_for_prediction (ideal_temp ideal_humidity : ℚ)
    (log : OrmDailyLog) : DailyLogDict :=
  { day := log.day_number,
    temperature := some (match log.temperature with
      | some t => t
      | none => ideal_temp),
    humidity := some (match log.humidity with
      | some h => h
      | none => ideal_humidity),
    watered := log.watered }

/-! ## retrain.py : ModelRetrainer -/

/-- The `model_metadata.json` document.  `feature_columns`, the weights
and `seed_types` are written by `save_models`; the retraining fields are
added by `retrain_models` (reads use `.get(key, 0)`, hence options). -/
structure MetaJson where
  feature_columns : List String
  rf_weight : ℚ
  nn_weight : ℚ
  seed_types : List String
  last_retrain : Option String := none
  total_samples : Option ℤ := none
  real_samples : Option ℤ := none
  retraining_metrics : Option (List (String × ℚ)) := none

/-- The on-disk state read and written by `ModelRetrainer`: the two CSV
corpora (modelled by their row counts, `none` when the file does not
exist), the currently saved model artifacts with their metadata, and the
timestamped backups. -/
structure ModelStore where
  synthetic_rows : Option ℕ
  real_rows : Option ℕ
  active_models : Option MicrogreensYieldPredictor
  metadata : Option MetaJson
  backups : List (String × (Option MicrogreensYieldPredictor × Option MetaJson))

/-- `ModelRetrainer.should_retrain` (retrain.py lines 108-134): false when
`real_crops.csv` does not exist; with metadata present, true iff the
real-row count minus the metadata's recorded `real_samples` (default 0)
reaches `min_new_samples`; without metadata, true iff the real-row count
alone reaches it.  (Line 129 binds an unused local from
`metadata.get('total_samples', 0)`.) -/
def should_retrain (st : ModelStore) (min_new_samples : ℤ := 10) : Bool :=
  match st.real_rows with
  | none => false
  | some nreal =>
    match st.metadata with
    | some m =>
      let new_samples : ℤ := (nreal : ℤ) - m.real_samples.getD 0
      min_new_samples ≤ new_samples
    | none => min_new_samples ≤ (nreal : ℤ)

/-- The combined training frame assembled by `retrain_models` (retrain.py
lines 148-167): the full synthetic corpus at weight 1.0 plus, when
present, the full real corpus at `real_data_weight`. -/
structure CombinedData where
  n_synthetic : ℕ
  n_real : ℕ
  real_weight : ℚ
deriving DecidableEq

/-- The result dict of a successful `retrain_models`. -/
structure RetrainResult where
  success : Bool
  timestamp : String
  metrics : List (String × ℚ)
  total_samples : ℤ
  real_samples : ℤ

/-- `ModelRetrainer.retrain_models` (retrain.py lines 136-212).  Training
itself (`MicrogreensYieldPredictor.train`, a sklearn/keras fit whose
internal mathematics the spec places out of scope) is passed in as
`trainFn`, which may fail; `ts` stands for the `datetime.now()` timestamp.
The store is threaded explicitly: reads happen first, and every write —
backing up the old artifacts, saving the new models, rewriting metadata —
happens only after `trainFn` has succeeded.  There is no exception
handler, so a failure is returned as the error with the store exactly as
it was. -/
def retrain_models
    (trainFn : CombinedData →
      Except PyErr (MicrogreensYieldPredictor × List (String × ℚ)))
    (ts : String) (real_data_weight : ℚ) (st : ModelStore) :
    Except PyErr RetrainResult × ModelStore :=
  match st.synthetic_rows with
  | none => (.error (.fileNotFound "synthetic_crops.csv"), st)
  | some nsyn =>
    let df_combined : CombinedData :=
      { n_synthetic := nsyn, n_real := st.real_rows.getD 0,
        real_weight := real_data_weight }
    match trainFn df_combined with
    | .error e => (.error e, st)
    | .ok (newModels, metrics) =>
      let st1 : ModelStore :=
        { st with backups := st.backups ++ [(ts, (st.active_models, st.metadata))] }
      let freshMeta : MetaJson :=
        { feature_columns := feature_cols, rf_weight := newModels.rf_weight,
          nn_weight := newModels.nn_weight, seed_types := newModels.classes }
      let total : ℤ := (nsyn : ℤ) + (st.real_rows.getD 0 : ℤ)
      let nreal : ℤ := match st.real_rows with
        | some n => (n : ℤ)
        | none => 0
      let updatedMeta : MetaJson :=
        { freshMeta with
            last_retrain := (some ts),
            total_samples := (some total),
            real_samples := (some nreal),
            retraining_metrics := some metrics }
      let st2 : ModelStore :=
        { st1 with
            active_models := (some newModels),
            metadata := some updatedMeta }
      (.ok { success := true, timestamp := ts, metrics := metrics,
             total_samples := total, real_samples := nreal }, st2)

/-! ## Concrete fixtures (from the repository's own example inputs) -/

/-- The example sunflower seed config from the self-test block of
prediction_service.py (lines 216-224). -/
def seedSunflower : SeedConfig :=
  { seed_type := "sunflower", name := "Sunflower", difficulty := "Easy",
    base_yield := 600, growth_days := 10, ideal_temp := 22.5,
    ideal_humidity := 50 }

/-- The five example daily logs from the self-test block of
prediction_service.py (lines 227-233). -/
def exampleLogs : List DailyLogDict :=
  [{ day := 1, temperature := some 23.0, humidity := some 52, watered := true },
   { day := 2, temperature := some 22.5, humidity := some 50, watered := true },
   { day := 3, temperature := some 24.0, humidity := some 48, watered := true },
   { day := 4, temperature := some 23.5, humidity := some 51, watered := true },
   { day := 5, temperature := some 22.0, humidity := some 53, watered := true }]

/-- A loaded predictor state used to evaluate the service on concrete
inputs (the regressors are irrelevant to the evaluated paths). -/
def fixedPredictor : MicrogreensYieldPredictor :=
  { rf_model := fun _ => 500, nn_model := fun _ => 550,
    scaler_mean := List.replicate 19 0, scaler_scale := List.replicate 19 1,
    classes := ["pea", "radish", "sunflower"] }

/-- A daily log lacking the `temperature` key (its measurement absent). -/
def logNoTemp : DailyLogDict :=
  { day := 1, humidity := some 50, watered := true }

/-- A latest log whose temperature is 3°C above ideal (a warning) and
which was not watered (a critical): 25.5°C against ideal 22.5°C. -/
def warnBeforeCriticalLog : DailyLogDict :=
  { day := 5, temperature := some 25.5, humidity := some 50, watered := false }

/-- A latest log matching the ideal conditions exactly. -/
def perfectLog : DailyLogDict :=
  { day := 1, temperature := some 22.5, humidity := some 50, watered := true }

/-- The categorical encoding of one seed-variety value at inference:
`safe_encode` followed by `seed_encoder.transform` (train_model.py lines
63-64), composed on a single value. -/
def encode_seed_type (classes : List String) (val : String) :
    Except PyErr ℕ :=
  (safe_encode classes val).bind (le_transform classes)

/-- Severity rank as the claim orders it: critical before warning before
success. -/
def sevRank (t : String) : ℕ :=
  if t = "critical" then 0 else if t = "warning" then 1 else 2

/-- Whether a suggestion list is ordered by nonincreasing severity
(every critical before every warning before every success). -/
def sevSorted : List Suggestion → Bool
  | [] => true
  | [_] => true
  | a :: b :: t => decide (sevRank a.type ≤ sevRank b.type) && sevSorted (b :: t)

/-- The dimension a suggestion belongs to, by its issue label:
temperature rules, then humidity rules, then the watering rule, then the
success entry. -/
def dimRank (s : Suggestion) : ℕ :=
  if s.issue = "Heat Stress Detected" ∨ s.issue = "Above Ideal Temperature" ∨
     s.issue = "Temperature Too Low" then 0
  else if s.issue = "Air Too Dry" ∨ s.issue = "High Humidity" then 1
  else if s.issue = "Missed Watering!" then 2
  else 3

/-- Whether a suggestion list is ordered by dimension (temperature,
humidity, watering, success). -/
def dimSorted : List Suggestion → Bool
  | [] => true
  | [_] => true
  | a :: b :: t => decide (dimRank a ≤ dimRank b) && dimSorted (b :: t)

/-- A complete single-row feature frame with every column of
`feature_cols`, used as a concrete scoring input. -/
def witnessFrame : DataFrame :=
  ⟨[("seed_type", .s "sunflower"), ("base_yield", .n 600),
    ("growth_days", .n 10), ("ideal_temp", .n 22.5),
    ("ideal_humidity", .n 50), ("avg_temp", .n 23), ("avg_humidity", .n 50.8),
    ("temp_deviation", .n 0.6), ("humidity_deviation", .n 1.6),
    ("watering_consistency", .n 1), ("temp_stress_days", .n 0),
    ("humidity_stress_days", .n 0), ("missed_watering_days", .n 0),
    ("max_temp", .n 24), ("min_temp", .n 22), ("max_humidity", .n 53),
    ("min_humidity", .n 48), ("latest_height_mm", .n 0),
    ("seeding_density_g_cm2", .n 0.465)]⟩

/-- The scaled feature row `prepare_features` produces from
`witnessFrame` under `fixedPredictor`. -/
def witnessRow : List ℚ :=
  scaler_transform fixedPredictor.scaler_mean fixedPredictor.scaler_scale
    [((2 : ℕ) : ℚ), 600, 10, 22.5, 50, 23, 50.8, 0.6, 1.6, 1, 0, 0, 0, 24,
     22, 53, 48, 0, 0.465]

/-- A metadata document recording 5 real samples at the last promotion. -/
def metaFive : MetaJson :=
  { feature_columns := feature_cols, rf_weight := 0.4, nn_weight := 0.6,
    seed_types := ["pea", "radish", "sunflower"], real_samples := some 5 }

/-- A store with 100 synthetic rows, 15 real rows and `metaFive`. -/
def storeFifteen : ModelStore :=
  { synthetic_rows := some 100, real_rows := some 15,
    active_models := some fixedPredictor, metadata := some metaFive,
    backups := [] }

/-- The success suggestion `_generate_suggestions` emits for
`perfectLog` against the sunflower profile at a 570 g prediction. -/
def perfectSuggestion : Suggestion :=
  { type := "success", issue := "Perfect Conditions!",
    message := "Keep it up! You\x27re on track for " ++
      toString (pyRound (570 : ℚ) 0) ++ "g yield.",
    potential_loss := none }

/-! ## Helper lemmas -/

theorem lookup_map_overwrite (l : List (String × PyVal)) (c : String) (v : PyVal) :
    (l.map (fun p => if p.1 = c then (c, v) else p)).lookup c =
      if (l.lookup c).isSome then some v else none := by
  induction l with
  | nil => rfl
  | cons a t ih =>
    obtain ⟨k, w⟩ := a
    simp only [List.map_cons]
    by_cases h : k = c
    · rw [if_pos (show (k, w).1 = c from h)]
      subst h
      simp [List.lookup, ih]
    · rw [if_neg (show ¬(k, w).1 = c from h)]
      have hb : (c == k) = false := beq_eq_false_iff_ne.mpr (Ne.symm h)
      simp only [List.lookup, hb, ih]

theorem lookup_map_overwrite_other (l : List (String × PyVal)) (c c2 : String)
    (v : PyVal) (h : c2 ≠ c) :
    (l.map (fun p => if p.1 = c then (c, v) else p)).lookup c2 = l.lookup c2 := by
  induction l with
  | nil => rfl
  | cons a t ih =>
    obtain ⟨k, w⟩ := a
    simp only [List.map_cons]
    by_cases ha : k = c
    · rw [if_pos (show (k, w).1 = c from ha)]
      subst ha
      have hb : (c2 == k) = false := beq_eq_false_iff_ne.mpr h
      simp [List.lookup, hb, ih]
    · rw [if_neg (show ¬(k, w).1 = c from ha)]
      simp only [List.lookup, ih]

theorem lookup_append_last (l : List (String × PyVal)) (c : String) (v : PyVal)
    (h : l.lookup c = none) :
    (l ++ [(c, v)]).lookup c = some v := by
  induction l with
  | nil => simp [List.lookup]
  | cons a t ih =>
    obtain ⟨k, w⟩ := a
    by_cases hb : c = k
    · subst hb
      simp [List.lookup] at h
    · have hb2 : (c == k) = false := beq_eq_false_iff_ne.mpr hb
      simp only [List.lookup, hb2] at h
      simp only [List.cons_append, List.lookup, hb2]
      exact ih h

theorem lookup_append_other (l : List (String × PyVal)) (c c2 : String)
    (v : PyVal) (h : c2 ≠ c) :
    (l ++ [(c, v)]).lookup c2 = l.lookup c2 := by
  induction l with
  | nil =>
    have hb : (c2 == c) = false := beq_eq_false_iff_ne.mpr h
    simp [List.lookup, hb]
  | cons a t ih =>
    obtain ⟨k, w⟩ := a
    by_cases hb : c2 = k
    · subst hb
      simp [List.lookup]
    · have hb2 : (c2 == k) = false := beq_eq_false_iff_ne.mpr hb
      simp only [List.cons_append, List.lookup, hb2]
      exact ih

theorem dfGet_dfSet_self (df : DataFrame) (c : String) (v : PyVal) :
    dfGet (dfSet df c v) c = .ok v := by
  unfold dfGet dfSet
  by_cases h : (df.cols.lookup c).isSome
  · simp [h, lookup_map_overwrite]
  · have hn : df.cols.lookup c = none := by
      cases hl : df.cols.lookup c with
      | none => rfl
      | some w => simp [hl] at h
    simp [h, lookup_append_last df.cols c v hn]

theorem dfGet_dfSet_other (df : DataFrame) (c c2 : String) (v : PyVal)
    (h : c2 ≠ c) :
    dfGet (dfSet df c v) c2 = dfGet df c2 := by
  unfold dfGet dfSet
  by_cases hs : (df.cols.lookup c).isSome
  · simp [hs, lookup_map_overwrite_other df.cols c c2 v h]
  · simp [hs, lookup_append_other df.cols c c2 v h]

/-- Whenever the vocabulary is nonempty, `safe_encode` succeeds and its
result is a member of the vocabulary. -/
theorem safe_encode_mem (classes : List String) (val : String)
    (h : classes ≠ []) :
    ∃ w, safe_encode classes val = .ok w ∧ w ∈ classes := by
  unfold safe_encode
  by_cases h1 : val ∈ classes
  · exact ⟨val, by simp [h1], h1⟩
  · by_cases h2 : pyReplace val "---" "-/-" ∈ classes
    · exact ⟨pyReplace val "---" "-/-", by simp [h1, h2], h2⟩
    · by_cases h3 : pyReplace val "-/-" "---" ∈ classes
      · exact ⟨pyReplace val "-/-" "---", by simp [h1, h2, h3], h3⟩
      · cases classes with
        | nil => exact absurd rfl h
        | cons c cs =>
          exact ⟨c, by simp [h1, h2, h3], List.mem_cons_self c cs⟩

/-! ## Claim theorems -/

/-- C1: the claim states that for every seed profile and every log history
with at least one entry the encoding step of `predict_yield` completes
without raising and produces the full fixed-schema feature row.  The code
violates this: the feature dict (prediction_service.py lines 98-99)
references the locals `max_temp` and `min_temp`, which the function never
assigns (only humidity max/min are computed, lines 73-74), so every call
with a non-empty log history raises `NameError: max_temp`.  Evaluated here
at the module's own self-test input (the sunflower config with its five
example logs), which the intended behaviour — witnessed by
`prepare_features`' schema, `generate_synthetic_data.py` and
`retrain.py`'s `add_harvest_data`, all of which carry `max_temp` and
`min_temp` — would have completed. -/
theorem C1_encoding_raises_nameerror :
    service_predict_yield fixedPredictor seedSunflower exampleLogs =
      .error (.nameError "max_temp") := by rfl

/-- C2 counterexample: the claim states that the feature encoding in
`predict_yield` substitutes the seed's ideal values for a missing
temperature/humidity so the call does not fail on such a log.  In fact the
very first aggregate (`np.mean([log['temperature'] ...])`,
prediction_service.py line 50) raises KeyError on a log lacking the
key: no substitution happens inside `predict_yield`. -/
theorem C2_counterexample_keyerror :
    service_predict_yield fixedPredictor seedSunflower [logNoTemp] =
      .error (.keyError "temperature") := by rfl

/-- C2 amended: the ideal-value substitution is performed by the backend
caller (`get_prediction` in main.py) while building the log dicts passed
to `predict_yield`: the prepared log always carries both keys, with the
measured value when present and with the seed's ideal value when
absent. -/
theorem C2_caller_substitutes_ideals (ideal_temp ideal_humidity : ℚ)
    (log : OrmDailyLog) :
    getTemperature (prep_log_for_prediction ideal_temp ideal_humidity log) =
      .ok (log.temperature.getD ideal_temp) ∧
    getHumidity (prep_log_for_prediction ideal_temp ideal_humidity log) =
      .ok (log.humidity.getD ideal_humidity) := by
  obtain ⟨d, t, hu, w⟩ := log
  constructor
  · cases t <;> rfl
  · cases hu <;> rfl

/-- C3 counterexample: the claim states that when the underlying
prediction fails, `MLService.predict_yield` returns base yield, empty
suggestions and status `"unavailable"` instead of propagating the
failure.  In fact (ml_service.py lines 57-67): the degraded default is
only returned when the predictor is `None`, and its status is
`"degraded"`, not `"unavailable"`; and when a predictor is loaded an
inference failure is not caught — it propagates to the caller. -/
theorem C3_counterexample_degraded_and_propagates :
    (mlservice_predict_yield none seedSunflower []).map
      (fun r => (r.status, r.suggestions)) = .ok ("degraded", []) ∧
    mlservice_predict_yield (some fixedPredictor) seedSunflower exampleLogs =
      .error (.nameError "max_temp") := by
  constructor <;> rfl

/-- C3 amended: when the ML predictor is unavailable (`self.predictor` is
`None`), `MLService.predict_yield` returns a result with only the base
yield, an empty suggestions list and status `"degraded"`; when a
predictor is loaded, a failing inference propagates its error to the
caller unchanged. -/
theorem C3_degraded_default_and_propagation (seed : SeedConfig)
    (daily_logs : List DailyLogDict) :
    mlservice_predict_yield none seed daily_logs =
      .ok { predicted_yield := seed.base_yield, base_yield := seed.base_yield,
            yield_efficiency := 1.0, potential_loss := 0,
            suggestions := [], status := "degraded" } ∧
    (∀ (p : MicrogreensYieldPredictor) (e : PyErr),
      service_predict_yield p seed daily_logs = .error e →
      mlservice_predict_yield (some p) seed daily_logs = .error e) := by
  refine ⟨rfl, fun p e h => ?_⟩
  simpa [mlservice_predict_yield] using h

/-- C3 amended, witness at concrete inputs: the degraded default for an
unavailable predictor, and propagation of the NameError raised by
inference under a loaded predictor. -/
theorem C3_degraded_default_and_propagation_witness :
    mlservice_predict_yield none seedSunflower [] =
      .ok { predicted_yield := seedSunflower.base_yield,
            base_yield := seedSunflower.base_yield,
            yield_efficiency := 1.0, potential_loss := 0,
            suggestions := [], status := "degraded" } ∧
    mlservice_predict_yield (some fixedPredictor) seedSunflower exampleLogs =
      .error (.nameError "max_temp") :=
  ⟨(C3_degraded_default_and_propagation seedSunflower []).1,
   (C3_degraded_default_and_propagation seedSunflower exampleLogs).2
     fixedPredictor (.nameError "max_temp") (by rfl)⟩

/-- C6: an empty log history short-circuits `predict_yield`
(prediction_service.py lines 32-45): the result has predicted_yield equal
to the seed's base_yield, efficiency 1.0, potential_loss 0, status
`"excellent"` and exactly the single "Ready to Start!" success
suggestion; the loaded ensemble model is never consulted (the result is
identical for any two predictors); in particular a seed with
base_yield = 600 yields 600 / 1.0 / excellent. -/
theorem C6_empty_logs_short_circuit (p q : MicrogreensYieldPredictor)
    (seed : SeedConfig) :
    service_predict_yield p seed [] =
      .ok { predicted_yield := seed.base_yield, base_yield := seed.base_yield,
            yield_efficiency := 1.0, potential_loss := 0,
            suggestions := [readyToStartSuggestion], status := "excellent" } ∧
    service_predict_yield p seed [] = service_predict_yield q seed [] ∧
    (service_predict_yield p seedSunflower []).map
      (fun r => (r.predicted_yield, r.yield_efficiency, r.status)) =
      .ok (600, 1.0, "excellent") := by
  exact ⟨rfl, rfl, rfl⟩

/-- C4: for every feature row accepted by
`MicrogreensYieldPredictor.predict`, the returned ensemble prediction is
exactly `rf_weight` times the random-forest prediction plus `nn_weight`
times the neural-network prediction on the prepared row, and the weights
default to 0.4 / 0.6 (train_model.py lines 34-35, 280). -/
theorem C4_ensemble_blend (p : MicrogreensYieldPredictor) (df df1 : DataFrame)
    (xs : List ℚ) (h : prepare_features p df = (df1, .ok xs)) :
    predictor_predict p df =
      (df1, .ok (p.rf_weight * p.rf_model xs + p.nn_weight * p.nn_model xs)) ∧
    (∀ (f g : List ℚ → ℚ) (m s : List ℚ) (c : List String),
      ({ rf_model := f, nn_model := g, scaler_mean := m, scaler_scale := s,
         classes := c } : MicrogreensYieldPredictor).rf_weight = 0.4 ∧
      ({ rf_model := f, nn_model := g, scaler_mean := m, scaler_scale := s,
         classes := c } : MicrogreensYieldPredictor).nn_weight = 0.6) := by
  refine ⟨?_, fun f g m s c => ⟨rfl, rfl⟩⟩
  unfold predictor_predict
  rw [h]

/-- C4, witness: scoring the complete concrete feature frame blends the
two concrete regressors with the stored weights. -/
theorem C4_ensemble_blend_witness :
    predictor_predict fixedPredictor witnessFrame =
      (⟨witnessFrame.cols ++ [("seed_encoded", PyVal.n ((2 : ℕ) : ℚ))]⟩,
       .ok (fixedPredictor.rf_weight * fixedPredictor.rf_model witnessRow +
            fixedPredictor.nn_weight * fixedPredictor.nn_model witnessRow)) :=
  (C4_ensemble_blend fixedPredictor witnessFrame
    ⟨witnessFrame.cols ++ [("seed_encoded", PyVal.n ((2 : ℕ) : ℚ))]⟩
    witnessRow (by rfl)).1

/-- C7: `should_retrain` (retrain.py lines 108-134) is false while the
current real-sample count minus the count recorded at the last promoted
version is strictly below the threshold, true exactly from the threshold
on; with no real-data file it is false; the default threshold is 10. -/
theorem C7_should_retrain_threshold (st : ModelStore) (nreal : ℕ) (n : ℤ)
    (h : st.real_rows = some nreal) :
    (∀ m : MetaJson, st.metadata = some m →
      (should_retrain st n = true ↔ n ≤ (nreal : ℤ) - m.real_samples.getD 0)) ∧
    (st.metadata = none → (should_retrain st n = true ↔ n ≤ (nreal : ℤ))) ∧
    (∀ st2 : ModelStore, st2.real_rows = none → should_retrain st2 n = false) ∧
    should_retrain st = should_retrain st 10 := by
  refine ⟨fun m hm => ?_, fun hm => ?_, fun st2 h2 => ?_, rfl⟩
  · simp [should_retrain, h, hm]
  · simp [should_retrain, h, hm]
  · simp [should_retrain, h2]

/-- C7, witness: with 15 real rows against 5 recorded at the last
promotion and threshold 10 the trigger fires; with 14 real rows it does
not. -/
theorem C7_should_retrain_threshold_witness :
    should_retrain storeFifteen 10 = true ∧
    should_retrain { storeFifteen with real_rows := some 14 } 10 = false := by
  constructor
  · exact ((C7_should_retrain_threshold storeFifteen 15 10 rfl).1 metaFive
      rfl).mpr (by decide)
  · have h := (C7_should_retrain_threshold
      { storeFifteen with real_rows := some 14 } 14 10 rfl).1 metaFive rfl
    cases hb : should_retrain { storeFifteen with real_rows := some 14 } 10
    · rfl
    · exact absurd (h.mp hb) (by decide)

/-- C8: when training inside `retrain_models` fails (retrain.py line 171,
before any artifact is backed up or written), the whole store — active
model files, metadata, backups, corpora — is returned unchanged and the
training error is propagated to the caller: there is no exception handler
in `retrain_models`. -/
theorem C8_failed_retrain_preserves_store
    (trainFn : CombinedData →
      Except PyErr (MicrogreensYieldPredictor × List (String × ℚ)))
    (ts : String) (w : ℚ) (st : ModelStore) (nsyn : ℕ) (e : PyErr)
    (hs : st.synthetic_rows = some nsyn)
    (hf : trainFn { n_synthetic := nsyn, n_real := st.real_rows.getD 0,
                    real_weight := w } = .error e) :
    retrain_models trainFn ts w st = (.error e, st) := by
  simp [retrain_models, hs, hf]

/-- C8, witness: a training function that always fails leaves the
concrete store untouched and surfaces its error. -/
theorem C8_failed_retrain_preserves_store_witness :
    retrain_models (fun _ => .error (.valueError "non-convergence"))
      "20240101_000000" 2 storeFifteen =
      (.error (.valueError "non-convergence"), storeFifteen) :=
  C8_failed_retrain_preserves_store
    (fun _ => .error (.valueError "non-convergence")) "20240101_000000" 2
    storeFifteen 100 (.valueError "non-convergence") rfl rfl

/-- C9: categorical encoding of a seed variety at inference
(train_model.py lines 52-64): a variety in the trained vocabulary always
maps to its fixed index; a variety absent from the vocabulary (also after
normalising the alternate separator forms) never raises and maps to the
single deterministic fallback index 0, the index of `classes_[0]`; for a
nonempty vocabulary encoding succeeds on every input string. -/
theorem C9_categorical_encoding (classes : List String) (val : String)
    (h : classes ≠ []) :
    (val ∈ classes →
      encode_seed_type classes val = .ok (classes.indexOf val)) ∧
    (val ∉ classes → pyReplace val "---" "-/-" ∉ classes →
     pyReplace val "-/-" "---" ∉ classes →
      encode_seed_type classes val = .ok 0) ∧
    (∃ i, encode_seed_type classes val = .ok i) := by
  refine ⟨fun h1 => ?_, fun h1 h2 h3 => ?_, ?_⟩
  · simp [encode_seed_type, safe_encode, le_transform, Except.bind, h1]
  · cases classes with
    | nil => exact absurd rfl h
    | cons c cs =>
      simp [encode_seed_type, safe_encode, le_transform, Except.bind, h1, h2,
        h3]
  · obtain ⟨w, hw, hmem⟩ := safe_encode_mem classes val h
    exact ⟨classes.indexOf w,
      by simp [encode_seed_type, hw, le_transform, Except.bind, hmem]⟩

/-- The mutated frame `prepare_features` leaves behind whenever the
seed_type cell is a string and the vocabulary is nonempty: seed_type
overwritten with the `safe_encode` result, seed_encoded set to its index;
later failures (missing feature columns) do not undo these writes. -/
theorem prepare_features_frame (p : MicrogreensYieldPredictor)
    (df : DataFrame) (v w : String) (i : ℕ)
    (h1 : dfGet df "seed_type" = .ok (.s v))
    (hw : safe_encode p.classes v = .ok w)
    (ht : le_transform p.classes w = .ok i) :
    (prepare_features p df).1 =
      dfSet (dfSet df "seed_type" (.s w)) "seed_encoded" (.n i) := by
  unfold prepare_features
  simp only [h1, hw, ht]
  cases hm : feature_cols.mapM
      (dfGetNum (dfSet (dfSet df "seed_type" (PyVal.s w)) "seed_encoded"
        (PyVal.n (i : ℚ)))) with
  | error e => simp [hm]
  | ok xs =>
    simp only [hm]
    split <;> rfl

/-- `predict` returns whatever frame `prepare_features` left behind, on
the success and on the error path alike. -/
theorem predictor_predict_frame (p : MicrogreensYieldPredictor)
    (df : DataFrame) :
    (predictor_predict p df).1 = (prepare_features p df).1 := by
  rcases hp : prepare_features p df with ⟨d, r⟩
  cases r <;> simp [predictor_predict, hp]

/-- C5 counterexample: the claim states suggestions are ordered by
severity (critical before warning before success).  At a latest log 3°C
above ideal (warning) that also missed watering (critical), the list
comes back `[warning, critical]` — dimension order, not severity
order. -/
theorem C5_counterexample_warning_precedes_critical :
    (generate_suggestions warnBeforeCriticalLog seedSunflower 500).map
      (fun l => (l.map Suggestion.type, sevSorted l)) =
      .ok (["warning", "critical"], false) := by
  simp only [generate_suggestions, warnBeforeCriticalLog, seedSunflower,
    getTemperature, getHumidity, bind, Except.bind, pure, Except.pure,
    Except.map]
  norm_num [sevSorted, sevRank]
  decide

/-- C5 amended: the list `_generate_suggestions` returns is ordered by
rule dimension — temperature suggestions before humidity suggestions
before the watering suggestion — with a lone success entry exactly when
no rule fires; it is never empty, and a success entry only ever appears
as the single element. -/
theorem C5_suggestions_dimension_ordered (latest : DailyLogDict)
    (seed : SeedConfig) (py : ℚ) (l : List Suggestion)
    (h : generate_suggestions latest seed py = .ok l) :
    dimSorted l = true ∧ (∀ s ∈ l, s.type = "success" → l = [s]) ∧
    l ≠ [] := by
  obtain ⟨d, t, hu, w⟩ := latest
  cases t with
  | none =>
    simp [generate_suggestions, getTemperature, bind, Except.bind] at h
  | some temp =>
    cases hu with
    | none =>
      simp [generate_suggestions, getTemperature, getHumidity, bind,
        Except.bind] at h
    | some humidity =>
      simp only [generate_suggestions, getTemperature, getHumidity, bind,
        Except.bind, pure, Except.pure] at h
      split_ifs at h <;>
        · simp only [Except.ok.injEq] at h
          subst h
          simp_all [dimSorted, dimRank]

/-- C5 amended, witness: at ideal conditions the single success entry is
returned, trivially dimension-ordered. -/
theorem C5_suggestions_dimension_ordered_witness :
    dimSorted [perfectSuggestion] = true ∧
    (∀ s ∈ [perfectSuggestion], s.type = "success" →
      [perfectSuggestion] = [s]) ∧
    ([perfectSuggestion] : List Suggestion) ≠ [] :=
  C5_suggestions_dimension_ordered perfectLog seedSunflower 570
    [perfectSuggestion] (by
      simp only [generate_suggestions, perfectLog, seedSunflower,
        getTemperature, getHumidity, bind, Except.bind, pure, Except.pure,
        perfectSuggestion]
      norm_num)

/-- C10: `MicrogreensYieldPredictor.predict` is not read-only on its
argument frame (train_model.py lines 63-64, executed inside `predict`):
it always writes a `seed_encoded` column into the caller's frame — so a
frame lacking that column is observably mutated — and it rewrites the
`seed_type` column with the `safe_encode` result, which differs from the
original value whenever that value is outside the trained vocabulary. -/
theorem C10_predict_mutates_frame (p : MicrogreensYieldPredictor)
    (df : DataFrame) (v : String)
    (h1 : dfGet df "seed_type" = .ok (.s v)) (h2 : p.classes ≠ []) :
    (∃ i : ℕ, dfGet (predictor_predict p df).1 "seed_encoded" =
      .ok (.n i)) ∧
    ((∃ e, dfGet df "seed_encoded" = .error e) →
      (predictor_predict p df).1 ≠ df) ∧
    (∃ w, w ∈ p.classes ∧
      dfGet (predictor_predict p df).1 "seed_type" = .ok (.s w) ∧
      (v ∉ p.classes → w ≠ v)) := by
  obtain ⟨w, hw, hmem⟩ := safe_encode_mem p.classes v h2
  have ht : le_transform p.classes w = .ok (p.classes.indexOf w) := by
    simp [le_transform, hmem]
  have hfst : (predictor_predict p df).1 =
      dfSet (dfSet df "seed_type" (.s w)) "seed_encoded"
        (.n (p.classes.indexOf w)) :=
    (predictor_predict_frame p df).trans
      (prepare_features_frame p df v w (p.classes.indexOf w) h1 hw ht)
  have henc : dfGet (predictor_predict p df).1 "seed_encoded" =
      .ok (.n (p.classes.indexOf w)) := by
    rw [hfst]
    exact dfGet_dfSet_self _ _ _
  refine ⟨⟨p.classes.indexOf w, henc⟩, ?_, ⟨w, hmem, ?_, fun hv => ?_⟩⟩
  · rintro ⟨e, he⟩ heq
    rw [heq] at henc
    rw [henc] at he
    exact Except.noConfusion he
  · rw [hfst,
      dfGet_dfSet_other _ _ _ _ (by decide : "seed_type" ≠ "seed_encoded")]
    exact dfGet_dfSet_self _ _ _
  · intro hwv
    exact hv (hwv ▸ hmem)

/-- C10, witness: a single-column frame with the unknown variety "kale"
is mutated by `predict`: it gains a `seed_encoded` column and its
seed_type is rewritten to a vocabulary class different from "kale". -/
theorem C10_predict_mutates_frame_witness :
    (∃ i : ℕ, dfGet
      (predictor_predict fixedPredictor ⟨[("seed_type", .s "kale")]⟩).1
      "seed_encoded" = .ok (.n i)) ∧
    ((∃ e, dfGet (⟨[("seed_type", .s "kale")]⟩ : DataFrame) "seed_encoded" =
        .error e) →
      (predictor_predict fixedPredictor ⟨[("seed_type", .s "kale")]⟩).1 ≠
        ⟨[("seed_type", .s "kale")]⟩) ∧
    (∃ w, w ∈ fixedPredictor.classes ∧
      dfGet (predictor_predict fixedPredictor
        ⟨[("seed_type", .s "kale")]⟩).1 "seed_type" = .ok (.s w) ∧
      ("kale" ∉ fixedPredictor.classes → w ≠ "kale")) :=
  C10_predict_mutates_frame fixedPredictor ⟨[("seed_type", .s "kale")]⟩
    "kale" (by rfl) (by simp [fixedPredictor])

/-- C9, witness: over the vocabulary pea/radish/sunflower, "radish"
encodes to its index 1, and the unknown "kale" (whose separator
normalisations are also unknown) encodes to the fallback index 0. -/
theorem C9_categorical_encoding_witness :
    encode_seed_type ["pea", "radish", "sunflower"] "radish" = .ok 1 ∧
    encode_seed_type ["pea", "radish", "sunflower"] "kale" = .ok 0 := by
  constructor
  · have h := (C9_categorical_encoding ["pea", "radish", "sunflower"] "radish"
      (by decide)).1 (by decide)
    simpa using h
  · exact (C9_categorical_encoding ["pea", "radish", "sunflower"] "kale"
      (by decide)).2.1 (by decide) (by decide) (by decide)

end Microgreen
